import Mathlib

/-!
# EcoRoute Optimizer — verification of the decision core

Shallow embedding of the decision core of the EcoRoute repository
(`core.py`, `backend/main.py`, `autonomous_agent.py`).

Conventions of the embedding:
* Python floats are modelled as exact rationals (`ℚ`).
* `round(x, nd)` is modelled by `roundTo nd x` below, rounding to the
  nearest multiple of `10^(-nd)` (ties rounded half-up here, while CPython
  rounds ties of the underlying binary float to even; none of the proved
  statements or concrete evaluations below sits on a tie).
* Network calls are modelled by passing the (possibly absent) response of
  the external service as an explicit argument; the `try/except` fallback
  branches of the source become the `none` cases of those arguments.
* Python f-string geometry signatures are modelled as tuples: the string
  `f"{a}-{b}-{c}"` built by the source is equal for two inputs exactly
  when the corresponding tuples `(a, b, c)` are equal.
-/

/-- `roundTo nd x` models Python's `round(x, nd)` over exact rationals. -/
def roundTo (nd : ℕ) (x : ℚ) : ℚ :=
  ((round (x * 10 ^ nd) : ℤ) : ℚ) / 10 ^ nd

theorem roundTo_def (nd : ℕ) (x : ℚ) :
    roundTo nd x = ((⌊x * 10 ^ nd + 1 / 2⌋ : ℤ) : ℚ) / 10 ^ nd := by
  rw [roundTo, round_eq]

theorem roundTo_nonneg (nd : ℕ) (x : ℚ) (hx : 0 ≤ x) : 0 ≤ roundTo nd x := by
  rw [roundTo_def]
  have h0 : (0 : ℚ) ≤ x * 10 ^ nd + 1 / 2 := by positivity
  have := Int.floor_nonneg.mpr h0
  positivity

theorem abs_roundTo_sub (nd : ℕ) (x : ℚ) :
    |roundTo nd x - x| ≤ 1 / (2 * 10 ^ nd) := by
  have hpow : (0 : ℚ) < 10 ^ nd := by positivity
  have h : |((round (x * 10 ^ nd) : ℤ) : ℚ) - x * 10 ^ nd| ≤ 1 / 2 := by
    rw [abs_sub_comm]
    exact abs_sub_round (x * 10 ^ nd)
  have hrw : roundTo nd x - x =
      (((round (x * 10 ^ nd) : ℤ) : ℚ) - x * 10 ^ nd) / 10 ^ nd := by
    rw [roundTo]
    field_simp
    ring
  rw [hrw, abs_div, abs_of_pos hpow, div_le_iff₀ hpow]
  have hval : (1 : ℚ) / (2 * 10 ^ nd) * 10 ^ nd = 1 / 2 := by
    field_simp
    ring
  rw [hval]
  exact h

/-- `core.py` — `TrafficCondition(str, Enum)`. -/
inductive TrafficCondition where
  | NORMAL
  | MODERATE
  | HEAVY
  deriving DecidableEq, Repr

/-- The `.value` string of the `TrafficCondition` enum. -/
def TrafficCondition.value : TrafficCondition → String
  | .NORMAL => "normal"
  | .MODERATE => "moderate"
  | .HEAVY => "heavy"

/-- `core.py` — `WeatherData` pydantic model. -/
structure WeatherData where
  temperature : ℚ
  condition : String
  wind_speed : ℚ
  precipitation : ℚ
  visibility : ℚ
  weather_code : ℤ := 0
  is_fallback : Bool := false
  deriving DecidableEq, Repr

/-- `core.py` — `RouteMetrics` pydantic model.  The `breakdown` dict is
modelled as an association list over its insertion order. -/
structure RouteMetrics where
  fuel_liters : ℚ
  co2_kg : ℚ
  cost_usd : ℚ
  distance_km : ℚ
  elevation_gain_m : ℚ
  estimated_time_min : ℚ
  total_cost_score : ℚ := 0
  confidence_score : ℚ := 1
  breakdown : List (String × ℚ) := []
  deriving DecidableEq, Repr

namespace CostModel

/-- `core.py` — `CostModel.BASE_FUEL_PER_KM = 0.08`. -/
def BASE_FUEL_PER_KM : ℚ := 8 / 100

/-- `core.py` — `CostModel.FUEL_COST_PER_LITER = 100.0` (INR). -/
def FUEL_COST_PER_LITER : ℚ := 100

/-- `core.py` — `CostModel.CO2_PER_LITER = 2.31`. -/
def CO2_PER_LITER : ℚ := 231 / 100

/-- The traffic multiplier table of `CostModel.calculate`
(`traffic_multipliers.get(traffic, 1.0)`; the dict is total on the enum). -/
def trafficMult : TrafficCondition → ℚ
  | .NORMAL => 1
  | .MODERATE => 5 / 4
  | .HEAVY => 8 / 5

/-- The weather penalty factor of `CostModel.calculate`: starts at `1.0`,
`+0.1` if `precipitation > 0`, `+0.05` if `wind_speed > 25`; `1.0` when no
weather is supplied. -/
def weatherFactor : Option WeatherData → ℚ
  | none => 1
  | some w =>
      (if w.precipitation > 0 then 1 + 1 / 10 else 1) +
        (if w.wind_speed > 25 then 1 / 20 else 0)

/-- The confidence of `CostModel.calculate`: starts at `1.0`, `*0.8` when
the weather reading is a fallback, `*0.9` when traffic is `HEAVY`. -/
def confidenceOf (traffic : TrafficCondition) (weather : Option WeatherData) : ℚ :=
  (if (weather.map WeatherData.is_fallback).getD false then 8 / 10 else 1) *
    (if traffic = .HEAVY then 9 / 10 else 1)

/-- `core.py` — `CostModel.calculate`. -/
def calculate (distance_km duration_min ascent_m : ℚ)
    (traffic : TrafficCondition) (weather : Option WeatherData := none) :
    RouteMetrics :=
  let dist_cost := distance_km * BASE_FUEL_PER_KM
  let elev_cost := (ascent_m / 100) * (15 / 100)
  let traffic_mult := trafficMult traffic
  let weather_factor := weatherFactor weather
  let estimated_fuel_liters := (dist_cost + elev_cost) * traffic_mult * weather_factor
  let fuel_cost_inr := estimated_fuel_liters * FUEL_COST_PER_LITER
  let time_cost_inr := (duration_min / 60) * 500
  let total_cost_score := fuel_cost_inr + time_cost_inr * (1 / 2)
  let confidence := confidenceOf traffic weather
  { fuel_liters := roundTo 2 estimated_fuel_liters
    co2_kg := roundTo 3 (estimated_fuel_liters * CO2_PER_LITER)
    cost_usd := roundTo 2 fuel_cost_inr
    distance_km := roundTo 1 distance_km
    elevation_gain_m := roundTo 0 ascent_m
    estimated_time_min := roundTo 0 duration_min
    total_cost_score := roundTo 2 total_cost_score
    confidence_score := roundTo 2 confidence
    breakdown :=
      [("distance_cost", roundTo 3 dist_cost),
       ("elevation_cost", roundTo 3 elev_cost),
       ("traffic_mult", traffic_mult),
       ("weather_mult", weather_factor)] }

end CostModel

namespace TrafficService

/-- `core.py` — `TrafficService._infer_from_speed`. -/
def infer_from_speed (duration_sec distance_km : ℚ) : TrafficCondition :=
  if distance_km ≤ 0 ∨ duration_sec ≤ 0 then .NORMAL
  else
    let avg_speed_kmh := distance_km / (duration_sec / 3600)
    if avg_speed_kmh < 20 then .HEAVY
    else if avg_speed_kmh < 40 then .MODERATE
    else .NORMAL

/-- `core.py` — `TrafficService._estimate_historical` (time-of-day table). -/
def estimate_historical (hour : ℕ) : TrafficCondition :=
  if hour = 8 ∨ hour = 9 ∨ hour = 17 ∨ hour = 18 then .HEAVY
  else if hour = 7 ∨ hour = 10 ∨ hour = 16 ∨ hour = 19 then .MODERATE
  else .NORMAL

/-- `core.py` — `TrafficService.get_traffic`.  The primary live provider is
mocked out in the source, and `_infer_from_speed` is total (its division is
guarded), so the secondary inference always answers and the historical
tertiary tier is unreachable. -/
def get_traffic (duration_osrm distance_km : ℚ) : TrafficCondition :=
  infer_from_speed duration_osrm distance_km

end TrafficService

/-- A geometry point, the `[lon, lat]` pair of GeoJSON coordinates. -/
abbrev Pt : Type := ℚ × ℚ

namespace ElevationService

/-- Python list slicing `xs[::step]` for `step ≥ 1`: every `step`-th
element starting at index 0. -/
def takeEvery (step : ℕ) : List Pt → List Pt
  | [] => []
  | x :: xs => x :: takeEvery step (xs.drop (step - 1))
  termination_by xs => xs.length
  decreasing_by
    simp only [List.length_drop, List.length_cons]
    omega

/-- The decimation step of `get_route_elevation_stats`:
`step = max(1, len(geometry_coords) // 5)`. -/
def decimationStep (n : ℕ) : ℕ := max 1 (n / 5)

/-- The sample points requested by `get_route_elevation_stats` (for a
geometry that passed the `len < 2` guard): `samples = geometry_coords[::step]`,
then the final point is appended when the slice did not end with it. -/
def elevationSamples (geometry_coords : List Pt) : List Pt :=
  let step := decimationStep geometry_coords.length
  let samples := takeEvery step geometry_coords
  if samples.getLast? = geometry_coords.getLast? then samples
  else samples ++ geometry_coords.getLast?.toList

/-- The ascent/descent accumulation loop of `get_route_elevation_stats`:
sum of positive deltas and of absolute non-positive deltas between
consecutive fetched elevations. -/
def ascentDescent : List ℚ → ℚ × ℚ
  | [] => (0, 0)
  | [_] => (0, 0)
  | e₀ :: e₁ :: rest =>
      let tail := ascentDescent (e₁ :: rest)
      let diff := e₁ - e₀
      if diff > 0 then (diff + tail.1, tail.2) else (tail.1, |diff| + tail.2)

/-- `core.py` — `ElevationService.get_route_elevation_stats`.
`elevResponse` is the parsed body of the batch elevation request for
`elevationSamples geometry_coords`; `none` stands for any failure of the
call (the `except` path), which leaves `elevations` empty. -/
def get_route_elevation_stats (geometry_coords : List Pt)
    (elevResponse : Option (List ℚ)) : ℚ × ℚ :=
  if geometry_coords.length < 2 then (0, 0)
  else
    let elevations := elevResponse.getD []
    if elevations = [] then (0, 0)
    else ascentDescent elevations

end ElevationService

/-- A raw OSRM route candidate (the dict fields the decision core reads):
`distance` in meters, `duration` in seconds, a GeoJSON coordinate list and
the provider label `weight_name`. -/
structure RouteData where
  distance : ℚ
  duration : ℚ
  geometry : List Pt
  weight_name : String := ""
  deriving DecidableEq, Repr

/-- The parsed body of an OSRM `/route` response: its `code` field and its
`routes` list when present. -/
structure OsrmResponse where
  code : String
  routes : Option (List RouteData)
  deriving Repr

namespace RouteFinder

/-- The straight-line fallback route of `RouteFinder.get_routes`.
`haversine_dist` is the great-circle distance computed by
`RouteFinder.haversine` (kept abstract because it is transcendental in the
coordinates; no claim depends on its value). -/
def fallbackRoute (origin_lat origin_lng dest_lat dest_lng haversine_dist : ℚ) :
    RouteData :=
  { distance := haversine_dist * 1000 * (12 / 10)
    duration := haversine_dist * (12 / 10) / 60 * 3600
    geometry := [(origin_lng, origin_lat), (dest_lng, dest_lat)]
    weight_name := "fallback" }

/-- `core.py` — `RouteFinder.get_routes`.  `response` is the parsed OSRM
reply; `none` stands for a network/JSON failure (the `except` path).  The
routes list is returned verbatim when `code == "Ok"` and the key exists —
even when that list is empty — otherwise the straight-line heuristic route
is substituted. -/
def get_routes (response : Option OsrmResponse)
    (origin_lat origin_lng dest_lat dest_lng haversine_dist : ℚ) :
    List RouteData :=
  match response with
  | some data =>
      match data.routes with
      | some rs => if data.code = "Ok" then rs
          else [fallbackRoute origin_lat origin_lng dest_lat dest_lng haversine_dist]
      | none => [fallbackRoute origin_lat origin_lng dest_lat dest_lng haversine_dist]
  | none => [fallbackRoute origin_lat origin_lng dest_lat dest_lng haversine_dist]

end RouteFinder

namespace Backend

/-- `backend/main.py` — the API-facing `RouteMetrics` model (same numeric
fields as the core model, without the breakdown). -/
structure ApiRouteMetrics where
  fuel_liters : ℚ
  co2_kg : ℚ
  cost_usd : ℚ
  distance_km : ℚ
  elevation_gain_m : ℚ
  estimated_time_min : ℚ
  total_cost_score : ℚ := 0
  confidence_score : ℚ := 0
  deriving DecidableEq, Repr

/-- The field-by-field mapping of core metrics into the API model
performed by `process_route_data`. -/
def toApiMetrics (m : RouteMetrics) : ApiRouteMetrics :=
  { fuel_liters := m.fuel_liters
    co2_kg := m.co2_kg
    cost_usd := m.cost_usd
    distance_km := m.distance_km
    elevation_gain_m := m.elevation_gain_m
    estimated_time_min := m.estimated_time_min
    total_cost_score := m.total_cost_score
    confidence_score := m.confidence_score }

/-- The dict built by `process_route_data` (the fields the decision logic
reads; the display-only f-string summaries and waypoint names are not
modelled). -/
structure ProcessedRoute where
  metrics : ApiRouteMetrics
  traffic : TrafficCondition
  weather : WeatherData
  geometry : List Pt
  deriving Repr

/-- `backend/main.py` — `process_route_data`.  `weather` is the reading
returned by `WeatherService.get_weather` at the origin and `elevResponse`
the parsed elevation batch reply (see `get_route_elevation_stats`). -/
def process_route_data (r_data : RouteData) (weather : WeatherData)
    (elevResponse : Option (List ℚ)) : ProcessedRoute :=
  let distance_km := r_data.distance / 1000
  let duration_min := r_data.duration / 60
  let geometry := r_data.geometry
  let stats := ElevationService.get_route_elevation_stats geometry elevResponse
  let ascent := stats.1
  -- the geometry midpoint only feeds the (mocked) live-provider location;
  -- the inference itself uses the raw duration and the distance
  let traffic_enum := TrafficService.get_traffic r_data.duration distance_km
  let core_metrics := CostModel.calculate distance_km duration_min ascent traffic_enum (some weather)
  { metrics := toApiMetrics core_metrics
    traffic := traffic_enum
    weather := weather
    geometry := geometry.map Prod.swap }

/-- `backend/main.py` — `RouteRequest` (coordinates optional). -/
structure RouteRequest where
  origin : String
  destination : String
  origin_lat : Option ℚ := none
  origin_lng : Option ℚ := none
  dest_lat : Option ℚ := none
  dest_lng : Option ℚ := none
  deriving Repr

/-- Python truthiness of an optional float request field: `None` and `0.0`
are falsy. -/
def truthyCoord : Option ℚ → Bool
  | none => false
  | some x => x ≠ 0

/-- The body of a successful `/calculate-route` reply (metrics and the
traffic string; static tips and waypoint echoes are not modelled). -/
structure CalcRouteResult where
  metrics : ApiRouteMetrics
  traffic_condition : String
  deriving Repr

/-- `backend/main.py` — `calculate_route`.  An `HTTPException` is modelled
as `Except.error (status_code, detail)`. -/
def calculate_route (request : RouteRequest) (osrmResponse : Option OsrmResponse)
    (haversine_dist : ℚ) (weather : WeatherData) (elevResponse : Option (List ℚ)) :
    Except (ℕ × String) CalcRouteResult :=
  if ¬(truthyCoord request.origin_lat ∧ truthyCoord request.origin_lng ∧
        truthyCoord request.dest_lat ∧ truthyCoord request.dest_lng) then
    .error (400, "Coordinates required")
  else
    let routes_data := RouteFinder.get_routes osrmResponse
      ((request.origin_lat).getD 0) ((request.origin_lng).getD 0)
      ((request.dest_lat).getD 0) ((request.dest_lng).getD 0) haversine_dist
    match routes_data with
    | [] => .error (404, "No routes found")
    | r0 :: _ =>
        let processed := process_route_data r0 weather elevResponse
        .ok { metrics := processed.metrics
              traffic_condition := processed.traffic.value }

end Backend

namespace Backend

/-- `backend/main.py` — the `AlternativeRoute` API model (fields the
ranking logic writes; display-only summaries are not modelled). -/
structure AlternativeRoute where
  route_name : String
  route_type : String
  metrics : ApiRouteMetrics
  geometry : List Pt
  deriving Repr

/-- `backend/main.py` — the `get_geo_sig` closure of
`get_alternative_routes`: the identity proxy `f"{len(g)}-{g[0]}-{g[-1]}"`,
modelled as the tuple of its three components; `none` models the marker
string `"empty"` returned for an empty geometry. -/
def geoSig3 (g : List Pt) : Option (ℕ × Pt × Pt) :=
  match g with
  | [] => none
  | p :: rest => some ((p :: rest).length, p, (p :: rest).getLast (List.cons_ne_nil p rest))

/-- `get_geo_sig` applied to a processed candidate reads its `geometry`
field. -/
def get_geo_sig (r : ProcessedRoute) : Option (ℕ × Pt × Pt) :=
  geoSig3 r.geometry

/-- The geometry signature of `add_route_if_new` in
`get_alternative_routes`, and of the spec glossary: the 4-tuple
`(point count, first point, last point, midpoint)`
(`f"{len(geo)}-{geo[0]}-{geo[-1]}-{geo[len(geo)//2]}"`), as a tuple;
`none` for an empty geometry (which `add_route_if_new` discards). -/
def geoSig4 (g : List Pt) : Option (ℕ × Pt × Pt × Pt) :=
  match g with
  | [] => none
  | p :: rest =>
      some ((p :: rest).length, p, (p :: rest).getLast (List.cons_ne_nil p rest),
        (p :: rest).get ⟨(p :: rest).length / 2, Nat.div_lt_self (Nat.succ_pos _) one_lt_two⟩)

/-- `sorted(cands, key=key)[0]` for a nonempty list: Python's sort is
stable, so this is the first element attaining the minimal key. -/
def minByKey (key : ProcessedRoute → ℚ) (x : ProcessedRoute)
    (xs : List ProcessedRoute) : ProcessedRoute :=
  xs.foldl (fun best a => if key a < key best then a else best) x

/-- The display rounding applied to every selected route at the end of
`get_alternative_routes`. -/
def displayRound (alt : AlternativeRoute) : AlternativeRoute :=
  { alt with metrics :=
      { alt.metrics with
          co2_kg := roundTo 3 alt.metrics.co2_kg
          fuel_liters := roundTo 3 alt.metrics.fuel_liters
          cost_usd := roundTo 3 alt.metrics.cost_usd } }

/-- `backend/main.py` — step 4 of `get_alternative_routes` ("Strictly
Assign Roles based on Data") followed by the display rounding: from the
processed candidates, pick the true fastest and the true most efficient,
collapse them into a single combined-role result when their geometry
signatures coincide, otherwise emit both plus (when a signature-distinct
candidate remains) the balanced option.  An empty candidate list raises
404, modelled as `Except.error`. -/
def assign_roles (processed_candidates : List ProcessedRoute) :
    Except (ℕ × String) (List AlternativeRoute) :=
  match processed_candidates with
  | [] => .error (404, "No unique routes found")
  | c :: cs =>
      let true_fastest := minByKey (fun r => r.metrics.estimated_time_min) c cs
      let true_efficient := minByKey (fun r => r.metrics.co2_kg) c cs
      let is_same_route := get_geo_sig true_fastest = get_geo_sig true_efficient
      let final_selection :=
        if is_same_route then
          [⟨"Fastest & Most Efficient", "most_efficient",
            true_fastest.metrics, true_fastest.geometry⟩]
        else
          let base := [(⟨"Most Efficient", "most_efficient",
                         true_efficient.metrics, true_efficient.geometry⟩ : AlternativeRoute),
                       ⟨"Fastest Route", "fastest",
                         true_fastest.metrics, true_fastest.geometry⟩]
          let remaining := (c :: cs).filter fun cand =>
            get_geo_sig cand ≠ get_geo_sig true_efficient ∧
              get_geo_sig cand ≠ get_geo_sig true_fastest
          match remaining with
          | [] => base  -- the runner-up branch of the source is `pass`
          | r :: rs =>
              let balanced := minByKey (fun x => x.metrics.total_cost_score) r rs
              base ++ [⟨"Balanced Option", "balanced",
                        balanced.metrics, balanced.geometry⟩]
      .ok (final_selection.map displayRound)

end Backend

namespace Agent

/-- `autonomous_agent.py` — the hysteresis margin of the re-routing loop
(`hysteresis = 1.0  # Cost difference needed to switch`). -/
def hysteresis : ℚ := 1

/-- One entry of `candidate_routes` in `autonomous_loop`, restricted to
the fields the re-routing check reads: the candidate index `id` and the
inputs fed back into `CostModel.calculate` on re-evaluation. -/
structure AgentCandidate where
  id : ℕ
  distance_km : ℚ
  estimated_time_min : ℚ
  ascent : ℚ
  traffic : TrafficCondition
  deriving DecidableEq, Repr

/-- The recomputed `total_cost_score` of a candidate under the current
weather, as produced by the `CostModel.calculate` calls of the re-routing
loop. -/
def recomputedScore (weather : WeatherData) (c : AgentCandidate) : ℚ :=
  (CostModel.calculate c.distance_km c.estimated_time_min c.ascent
    c.traffic (some weather)).total_cost_score

/-- One iteration of the `for alt in candidate_routes:` re-routing loop:
skip the active id, recompute the alternate's score, and adopt the
alternate as `best_alt` when its score is strictly below the running
`current_best_score` minus the hysteresis margin. -/
def recheckStep (active_id : ℕ) (weather : WeatherData)
    (st : Option AgentCandidate × ℚ) (alt : AgentCandidate) :
    Option AgentCandidate × ℚ :=
  if alt.id = active_id then st
  else
    let alt_score := recomputedScore weather alt
    if alt_score < st.2 - hysteresis then (some alt, alt_score) else st

/-- `autonomous_agent.py` — the re-routing check of `autonomous_loop`
(lines 161–183): starting from `best_alt = None` and `current_best_score`
equal to the freshly recomputed active score, fold the check over the
candidate list.  The returned first component is `best_alt`; the switch is
performed exactly when it is `some`. -/
def recheckAlternatives (active : AgentCandidate) (weather : WeatherData)
    (candidate_routes : List AgentCandidate) : Option AgentCandidate × ℚ :=
  candidate_routes.foldl (recheckStep active.id weather)
    (none, recomputedScore weather active)

/-- The route that `autonomous_loop` switches to after the check (`if
best_alt: active_route = best_alt`), when any. -/
def rerouteTarget (active : AgentCandidate) (weather : WeatherData)
    (candidate_routes : List AgentCandidate) : Option AgentCandidate :=
  (recheckAlternatives active weather candidate_routes).1

end Agent

theorem roundTo_mono (nd : ℕ) {x y : ℚ} (h : x ≤ y) : roundTo nd x ≤ roundTo nd y := by
  rw [roundTo_def, roundTo_def]
  have hpow : (0 : ℚ) < 10 ^ nd := by positivity
  gcongr

theorem roundTo_zero (nd : ℕ) : roundTo nd 0 = 0 := by
  simp [roundTo]

theorem roundTo_one (nd : ℕ) : roundTo nd 1 = 1 := by
  rw [roundTo]
  rw [one_mul, show ((10 : ℚ) ^ nd) = ((10 ^ nd : ℤ) : ℚ) by push_cast; ring, round_intCast]
  field_simp

/-- **C5** — The speed-based traffic inference returns `NORMAL` whenever
distance or duration is non-positive (never dividing by zero); otherwise
it returns `HEAVY` when the implied average speed is below 20 km/h,
`MODERATE` when it is below 40 km/h, and `NORMAL` otherwise. -/
theorem infer_from_speed_characterization (duration_sec distance_km : ℚ) :
    ((distance_km ≤ 0 ∨ duration_sec ≤ 0) →
      TrafficService.infer_from_speed duration_sec distance_km = .NORMAL) ∧
    (0 < distance_km → 0 < duration_sec →
      ((distance_km / (duration_sec / 3600) < 20 →
          TrafficService.infer_from_speed duration_sec distance_km = .HEAVY) ∧
        (20 ≤ distance_km / (duration_sec / 3600) →
          distance_km / (duration_sec / 3600) < 40 →
          TrafficService.infer_from_speed duration_sec distance_km = .MODERATE) ∧
        (40 ≤ distance_km / (duration_sec / 3600) →
          TrafficService.infer_from_speed duration_sec distance_km = .NORMAL))) := by
  constructor
  · intro h
    simp only [TrafficService.infer_from_speed, if_pos h]
  · intro hd ht
    have hguard : ¬(distance_km ≤ 0 ∨ duration_sec ≤ 0) := by
      push_neg
      exact ⟨hd, ht⟩
    refine ⟨fun hv => ?_, fun hv1 hv2 => ?_, fun hv => ?_⟩
    · simp only [TrafficService.infer_from_speed, if_neg hguard, if_pos hv]
    · simp only [TrafficService.infer_from_speed, if_neg hguard,
        if_neg (not_lt.mpr hv1), if_pos hv2]
    · simp only [TrafficService.infer_from_speed, if_neg hguard,
        if_neg (not_lt.mpr (by linarith : (20 : ℚ) ≤ distance_km / (duration_sec / 3600))),
        if_neg (not_lt.mpr hv)]

theorem infer_from_speed_characterization_witness :
    TrafficService.infer_from_speed 0 10 = .NORMAL ∧
    TrafficService.infer_from_speed 3600 10 = .HEAVY ∧
    TrafficService.infer_from_speed 3600 30 = .MODERATE ∧
    TrafficService.infer_from_speed 3600 50 = .NORMAL :=
  ⟨(infer_from_speed_characterization 0 10).1 (Or.inr (by norm_num)),
   ((infer_from_speed_characterization 3600 10).2 (by norm_num) (by norm_num)).1
     (by norm_num),
   ((infer_from_speed_characterization 3600 30).2 (by norm_num) (by norm_num)).2.1
     (by norm_num) (by norm_num),
   ((infer_from_speed_characterization 3600 50).2 (by norm_num) (by norm_num)).2.2
     (by norm_num)⟩

/-- **C8** — For every geometry with fewer than 2 points the elevation
adapter returns ascent 0 and descent 0, whatever the elevation service
would have answered (the function is total, so no exception escapes). -/
theorem elevation_stats_short_geometry (geometry_coords : List Pt)
    (elevResponse : Option (List ℚ)) (h : geometry_coords.length < 2) :
    ElevationService.get_route_elevation_stats geometry_coords elevResponse = (0, 0) := by
  simp only [ElevationService.get_route_elevation_stats, if_pos h]

theorem elevation_stats_short_geometry_witness :
    ElevationService.get_route_elevation_stats [((5 : ℚ), (7 : ℚ))] (some [123, 456]) = (0, 0) :=
  elevation_stats_short_geometry [((5 : ℚ), (7 : ℚ))] (some [123, 456]) (by simp)

/-- **C10** — Omitting the weather argument of `CostModel.calculate`
yields a weather multiplier of exactly 1 and no weather-fallback
confidence penalty: the result coincides with a call carrying a
non-fallback reading with zero precipitation and wind speed at most
25 km/h. -/
theorem calculate_default_weather (distance_km duration_min ascent_m : ℚ)
    (traffic : TrafficCondition) (w : WeatherData)
    (hp : w.precipitation = 0) (hw : w.wind_speed ≤ 25) (hf : w.is_fallback = false) :
    CostModel.weatherFactor none = 1 ∧
    CostModel.calculate distance_km duration_min ascent_m traffic none =
      CostModel.calculate distance_km duration_min ascent_m traffic (some w) := by
  have h1 : CostModel.weatherFactor (some w) = 1 := by
    simp [CostModel.weatherFactor, hp, not_lt.mpr hw]
  have h0 : CostModel.weatherFactor none = 1 := rfl
  refine ⟨h0, ?_⟩
  have h2 : CostModel.confidenceOf traffic (some w) = CostModel.confidenceOf traffic none := by
    simp [CostModel.confidenceOf, hf]
  simp only [CostModel.calculate, h0, h1, h2]

theorem calculate_default_weather_witness :
    CostModel.weatherFactor none = 1 ∧
    CostModel.calculate 10 30 50 .MODERATE none =
      CostModel.calculate 10 30 50 .MODERATE
        (some { temperature := 20, condition := "Clear", wind_speed := 10,
                precipitation := 0, visibility := 10, weather_code := 0,
                is_fallback := false }) :=
  calculate_default_weather 10 30 50 .MODERATE _ rfl (by norm_num) rfl

/-- **C9 (counterexample)** — The breakdown of a `CostModel.calculate`
result has no entry under the key `"traffic_multiplier"` (nor
`"weather_multiplier"`): the multipliers are stored under the abbreviated
keys `"traffic_mult"` and `"weather_mult"`. -/
theorem breakdown_multiplier_keys_absent :
    (CostModel.calculate 10 60 0 .NORMAL none).breakdown.lookup "traffic_multiplier" = none ∧
    (CostModel.calculate 10 60 0 .NORMAL none).breakdown.lookup "weather_multiplier" = none := by
  constructor <;> simp [CostModel.calculate, List.lookup]

/-- **C9 (amended)** — Every `RouteMetrics` produced by
`CostModel.calculate` carries a breakdown map with entries under the keys
`distance_cost`, `elevation_cost`, `traffic_mult` and `weather_mult`, each
mapped to that term's numeric contribution for the call (the two cost
terms as recorded after their 3-decimal display rounding, the multipliers
exactly). -/
theorem breakdown_contains_all_terms (distance_km duration_min ascent_m : ℚ)
    (traffic : TrafficCondition) (weather : Option WeatherData) :
    (CostModel.calculate distance_km duration_min ascent_m traffic weather).breakdown.lookup
        "distance_cost" = some (roundTo 3 (distance_km * CostModel.BASE_FUEL_PER_KM)) ∧
    (CostModel.calculate distance_km duration_min ascent_m traffic weather).breakdown.lookup
        "elevation_cost" = some (roundTo 3 ((ascent_m / 100) * (15 / 100))) ∧
    (CostModel.calculate distance_km duration_min ascent_m traffic weather).breakdown.lookup
        "traffic_mult" = some (CostModel.trafficMult traffic) ∧
    (CostModel.calculate distance_km duration_min ascent_m traffic weather).breakdown.lookup
        "weather_mult" = some (CostModel.weatherFactor weather) := by
  refine ⟨?_, ?_, ?_, ?_⟩ <;> simp [CostModel.calculate, List.lookup]

theorem trafficMult_nonneg (tr : TrafficCondition) : 0 ≤ CostModel.trafficMult tr := by
  cases tr <;> norm_num [CostModel.trafficMult]

theorem trafficMult_le (tr : TrafficCondition) : CostModel.trafficMult tr ≤ 8 / 5 := by
  cases tr <;> norm_num [CostModel.trafficMult]

theorem one_le_weatherFactor (w : Option WeatherData) : 1 ≤ CostModel.weatherFactor w := by
  cases w with
  | none => norm_num [CostModel.weatherFactor]
  | some w =>
      simp only [CostModel.weatherFactor]
      split <;> split <;> norm_num

theorem weatherFactor_le (w : Option WeatherData) : CostModel.weatherFactor w ≤ 23 / 20 := by
  cases w with
  | none => norm_num [CostModel.weatherFactor]
  | some w =>
      simp only [CostModel.weatherFactor]
      split <;> split <;> norm_num

theorem confidenceOf_nonneg (tr : TrafficCondition) (w : Option WeatherData) :
    0 ≤ CostModel.confidenceOf tr w := by
  simp only [CostModel.confidenceOf]
  split <;> split <;> norm_num

theorem confidenceOf_le_one (tr : TrafficCondition) (w : Option WeatherData) :
    CostModel.confidenceOf tr w ≤ 1 := by
  simp only [CostModel.confidenceOf]
  split <;> split <;> norm_num

/-- **C7** — For all valid inputs (non-negative distance, duration and
ascent, any traffic condition and any weather), the `total_cost_score`
returned by `CostModel.calculate` is non-negative and the
`confidence_score` lies in `[0, 1]`. -/
theorem calculate_score_nonneg_confidence_unit (distance_km duration_min ascent_m : ℚ)
    (traffic : TrafficCondition) (weather : Option WeatherData)
    (hd : 0 ≤ distance_km) (ht : 0 ≤ duration_min) (ha : 0 ≤ ascent_m) :
    0 ≤ (CostModel.calculate distance_km duration_min ascent_m traffic weather).total_cost_score ∧
    (CostModel.calculate distance_km duration_min ascent_m traffic weather).confidence_score ∈
      Set.Icc (0 : ℚ) 1 := by
  have htm := trafficMult_nonneg traffic
  have hwf : (0 : ℚ) ≤ CostModel.weatherFactor weather :=
    le_trans zero_le_one (one_le_weatherFactor weather)
  refine ⟨?_, ?_, ?_⟩
  · simp only [CostModel.calculate]
    apply roundTo_nonneg
    have hbase : (0 : ℚ) ≤ distance_km * CostModel.BASE_FUEL_PER_KM +
        ascent_m / 100 * (15 / 100) := by
      have : (0 : ℚ) ≤ CostModel.BASE_FUEL_PER_KM := by norm_num [CostModel.BASE_FUEL_PER_KM]
      positivity
    have hfuel : (0 : ℚ) ≤ (distance_km * CostModel.BASE_FUEL_PER_KM +
        ascent_m / 100 * (15 / 100)) * CostModel.trafficMult traffic *
        CostModel.weatherFactor weather :=
      mul_nonneg (mul_nonneg hbase htm) hwf
    have hcost : (0 : ℚ) ≤ CostModel.FUEL_COST_PER_LITER := by
      norm_num [CostModel.FUEL_COST_PER_LITER]
    have htime : (0 : ℚ) ≤ duration_min / 60 * 500 * (1 / 2) := by positivity
    nlinarith [mul_nonneg hfuel hcost]
  · simp only [CostModel.calculate]
    exact roundTo_nonneg _ _ (confidenceOf_nonneg traffic weather)
  · simp only [CostModel.calculate]
    calc roundTo 2 (CostModel.confidenceOf traffic weather) ≤ roundTo 2 1 :=
          roundTo_mono 2 (confidenceOf_le_one traffic weather)
    _ = 1 := roundTo_one 2

theorem calculate_score_nonneg_confidence_unit_witness :
    0 ≤ (CostModel.calculate 10 60 100 .HEAVY
          (some { temperature := 15, condition := "Cloudy (Fallback)", wind_speed := 5,
                  precipitation := 0, visibility := 8, weather_code := 0,
                  is_fallback := true })).total_cost_score ∧
    (CostModel.calculate 10 60 100 .HEAVY
        (some { temperature := 15, condition := "Cloudy (Fallback)", wind_speed := 5,
                precipitation := 0, visibility := 8, weather_code := 0,
                is_fallback := true })).confidence_score ∈ Set.Icc (0 : ℚ) 1 :=
  calculate_score_nonneg_confidence_unit 10 60 100 .HEAVY _
    (by norm_num) (by norm_num) (by norm_num)

theorem round2_combination_bound (DC EC TM WF : ℚ)
    (hTM0 : 0 ≤ TM) (hTM : TM ≤ 8 / 5) (hWF0 : 0 ≤ WF) (hWF : WF ≤ 23 / 20) :
    |roundTo 2 ((DC + EC) * TM * WF) - (roundTo 3 DC + roundTo 3 EC) * TM * WF| ≤ 1 / 100 := by
  have hM0 : 0 ≤ TM * WF := mul_nonneg hTM0 hWF0
  have hM : TM * WF ≤ 46 / 25 := by nlinarith
  have hs := abs_roundTo_sub 2 ((DC + EC) * TM * WF)
  have hu := abs_roundTo_sub 3 DC
  have hv := abs_roundTo_sub 3 EC
  rw [show (1 : ℚ) / (2 * 10 ^ 2) = 1 / 200 by norm_num] at hs
  rw [show (1 : ℚ) / (2 * 10 ^ 3) = 1 / 2000 by norm_num] at hu hv
  obtain ⟨hs1, hs2⟩ := abs_le.mp hs
  obtain ⟨hu1, hu2⟩ := abs_le.mp hu
  obtain ⟨hv1, hv2⟩ := abs_le.mp hv
  have hexp : (roundTo 3 DC + roundTo 3 EC) * TM * WF =
      (DC + EC) * TM * WF + ((roundTo 3 DC - DC) + (roundTo 3 EC - EC)) * (TM * WF) := by
    ring
  have hub : ((roundTo 3 DC - DC) + (roundTo 3 EC - EC)) * (TM * WF) ≤ 1 / 1000 * (TM * WF) :=
    mul_le_mul_of_nonneg_right (by linarith) hM0
  have hlb : -(1 / 1000 : ℚ) * (TM * WF) ≤
      ((roundTo 3 DC - DC) + (roundTo 3 EC - EC)) * (TM * WF) :=
    mul_le_mul_of_nonneg_right (by linarith) hM0
  rw [hexp, abs_le]
  constructor <;> linarith

/-- **C2** — For every input, the `fuel_liters` of the `RouteMetrics`
returned by `CostModel.calculate` equals
`(distance_cost + elevation_cost) * traffic_multiplier * weather_multiplier`
computed from the values recorded in the same result's breakdown map, up
to the 1/100 tolerance introduced by the result's own display rounding. -/
theorem fuel_liters_matches_breakdown (distance_km duration_min ascent_m : ℚ)
    (traffic : TrafficCondition) (weather : Option WeatherData) (dc ec tm wm : ℚ)
    (h1 : (CostModel.calculate distance_km duration_min ascent_m traffic weather).breakdown.lookup
        "distance_cost" = some dc)
    (h2 : (CostModel.calculate distance_km duration_min ascent_m traffic weather).breakdown.lookup
        "elevation_cost" = some ec)
    (h3 : (CostModel.calculate distance_km duration_min ascent_m traffic weather).breakdown.lookup
        "traffic_mult" = some tm)
    (h4 : (CostModel.calculate distance_km duration_min ascent_m traffic weather).breakdown.lookup
        "weather_mult" = some wm) :
    |(CostModel.calculate distance_km duration_min ascent_m traffic weather).fuel_liters -
        (dc + ec) * tm * wm| ≤ 1 / 100 := by
  simp only [CostModel.calculate, List.lookup] at h1 h2 h3 h4
  simp at h1 h2 h3 h4
  subst h1 h2 h3 h4
  simp only [CostModel.calculate]
  exact round2_combination_bound _ _ _ _ (trafficMult_nonneg traffic) (trafficMult_le traffic)
    (le_trans zero_le_one (one_le_weatherFactor weather)) (weatherFactor_le weather)

theorem fuel_liters_matches_breakdown_witness :
    |(CostModel.calculate 10 0 0 .NORMAL none).fuel_liters - (4 / 5 + 0) * 1 * 1| ≤ 1 / 100 :=
  fuel_liters_matches_breakdown 10 0 0 .NORMAL none (4 / 5) 0 1 1
    (by simp [CostModel.calculate, List.lookup, CostModel.BASE_FUEL_PER_KM]
        rw [roundTo_def]
        norm_num)
    (by simp [CostModel.calculate, List.lookup, roundTo_zero])
    (by simp [CostModel.calculate, List.lookup, CostModel.trafficMult])
    (by simp [CostModel.calculate, List.lookup, CostModel.weatherFactor])

/-- **C4** — When the routing collaborator answers `Ok` with an empty
candidate list, `get_routes` passes the empty list through (no fallback
route is substituted on this path) and the planning attempt in
`calculate_route` fails with the explicit 404 "No routes found" outcome
instead of proceeding with zero candidates. -/
theorem empty_candidates_no_route (request : Backend.RouteRequest)
    (haversine_dist : ℚ) (weather : WeatherData) (elevResponse : Option (List ℚ))
    (h1 : Backend.truthyCoord request.origin_lat = true)
    (h2 : Backend.truthyCoord request.origin_lng = true)
    (h3 : Backend.truthyCoord request.dest_lat = true)
    (h4 : Backend.truthyCoord request.dest_lng = true) :
    (∀ olat olng dlat dlng hd : ℚ,
      RouteFinder.get_routes (some ⟨"Ok", some []⟩) olat olng dlat dlng hd = []) ∧
    Backend.calculate_route request (some ⟨"Ok", some []⟩) haversine_dist weather
      elevResponse = .error (404, "No routes found") := by
  have hroutes : ∀ olat olng dlat dlng hd : ℚ,
      RouteFinder.get_routes (some ⟨"Ok", some []⟩) olat olng dlat dlng hd = [] := by
    intro olat olng dlat dlng hd
    simp [RouteFinder.get_routes]
  refine ⟨hroutes, ?_⟩
  simp [Backend.calculate_route, h1, h2, h3, h4, hroutes]

theorem empty_candidates_no_route_witness :
    Backend.calculate_route
        { origin := "A", destination := "B", origin_lat := some 1, origin_lng := some 2,
          dest_lat := some 3, dest_lng := some 4 }
        (some ⟨"Ok", some []⟩) 0
        { temperature := 15, condition := "Cloudy (Fallback)", wind_speed := 5,
          precipitation := 0, visibility := 8, weather_code := 0, is_fallback := true }
        none = .error (404, "No routes found") :=
  (empty_candidates_no_route _ 0 _ none
    (by norm_num [Backend.truthyCoord]) (by norm_num [Backend.truthyCoord])
    (by norm_num [Backend.truthyCoord]) (by norm_num [Backend.truthyCoord])).2

namespace ElevationService

theorem takeEvery_one (xs : List Pt) : takeEvery 1 xs = xs := by
  induction xs with
  | nil => simp [takeEvery]
  | cons x t ih => simp [takeEvery, ih]

theorem length_takeEvery_aux (s : ℕ) (hs : 1 ≤ s) :
    ∀ (n : ℕ) (xs : List Pt), xs.length ≤ n →
      (takeEvery s xs).length = (xs.length + s - 1) / s := by
  intro n
  induction n with
  | zero =>
      intro xs hx
      have hxs : xs = [] := List.length_eq_zero.mp (Nat.le_zero.mp hx)
      subst hxs
      simp only [takeEvery, List.length_nil, Nat.zero_add]
      exact (Nat.div_eq_of_lt (by omega)).symm
  | succ n ih =>
      intro xs hx
      match xs with
      | [] =>
          simp only [takeEvery, List.length_nil, Nat.zero_add]
          exact (Nat.div_eq_of_lt (by omega)).symm
      | x :: t =>
          simp only [takeEvery, List.length_cons]
          have hdl : (t.drop (s - 1)).length = t.length - (s - 1) := List.length_drop _ _
          have hle : (t.drop (s - 1)).length ≤ n := by
            simp only [List.length_cons] at hx
            omega
          rw [ih _ hle, hdl]
          rcases Nat.le_total (s - 1) t.length with h | h
          · have h1 : t.length - (s - 1) + s - 1 = t.length := by omega
            have h2 : t.length + 1 + s - 1 = t.length + s := by omega
            rw [h1, h2, Nat.add_div_right _ (by omega : 0 < s)]
          · have h1 : t.length - (s - 1) + s - 1 = s - 1 := by omega
            have h2 : t.length + 1 + s - 1 = t.length + s := by omega
            rw [h1, h2, Nat.div_eq_of_lt (by omega : s - 1 < s),
              Nat.add_div_right _ (by omega : 0 < s),
              Nat.div_eq_of_lt (by omega : t.length < s)]

theorem length_takeEvery (s : ℕ) (hs : 1 ≤ s) (xs : List Pt) :
    (takeEvery s xs).length = (xs.length + s - 1) / s :=
  length_takeEvery_aux s hs xs.length xs le_rfl

end ElevationService

/-- A 9-point straight-line geometry: with `step = max(1, 9 // 5) = 1`
the slice keeps all 9 points. -/
def ninePointLine : List Pt :=
  [(0, 0), (1, 0), (2, 0), (3, 0), (4, 0), (5, 0), (6, 0), (7, 0), (8, 0)]

/-- **C6 (counterexample)** — A 9-point geometry makes the elevation
adapter request all 9 of its points: more than 5 evenly-spaced samples
plus the final point (at most 6) as claimed. -/
theorem elevationSamples_nine_points :
    2 ≤ ninePointLine.length ∧
    (ElevationService.elevationSamples ninePointLine).length = 9 ∧
    ¬(ElevationService.elevationSamples ninePointLine).length ≤ 5 + 1 := by
  have hlen : (ElevationService.elevationSamples ninePointLine).length = 9 := by
    simp [ElevationService.elevationSamples, ElevationService.decimationStep,
      ninePointLine, ElevationService.takeEvery_one]
  exact ⟨by simp [ninePointLine], hlen, by omega⟩

/-- **C6 (amended)** — For every route geometry with at least 2 points,
the elevation adapter selects at most 9 sample points in total (the
`max(1, n // 5)`-strided slice plus the possibly appended final point):
all `n ≤ 9` points when the geometry is short, and at most 7 strided
samples plus the final point when `n ≥ 10`. -/
theorem elevationSamples_length_le (coords : List Pt) (h : 2 ≤ coords.length) :
    (ElevationService.elevationSamples coords).length ≤ 9 := by
  rcases Nat.lt_or_ge coords.length 10 with h9 | h10
  · have hstep : ElevationService.decimationStep coords.length = 1 := by
      rw [ElevationService.decimationStep]
      omega
    simp only [ElevationService.elevationSamples, hstep, ElevationService.takeEvery_one,
      if_pos rfl, if_true, eq_self_iff_true, ite_true]
    omega
  · have hq2 : 2 ≤ coords.length / 5 := by omega
    have hstep : ElevationService.decimationStep coords.length = coords.length / 5 := by
      rw [ElevationService.decimationStep]
      omega
    have hcount : (ElevationService.takeEvery (coords.length / 5) coords).length ≤ 7 := by
      rw [ElevationService.length_takeEvery _ (by omega)]
      have hlt : (coords.length + coords.length / 5 - 1) / (coords.length / 5) < 8 := by
        rw [Nat.div_lt_iff_lt_mul (by omega : 0 < coords.length / 5)]
        omega
      omega
    simp only [ElevationService.elevationSamples, hstep]
    split
    · exact le_trans hcount (by norm_num)
    · rw [List.length_append]
      have htl : (coords.getLast?).toList.length ≤ 1 := by
        cases coords.getLast? <;> simp
      omega

theorem elevationSamples_length_le_witness :
    2 ≤ ninePointLine.length ∧
    (ElevationService.elevationSamples ninePointLine).length ≤ 9 :=
  ⟨by simp [ninePointLine], elevationSamples_length_le ninePointLine (by simp [ninePointLine])⟩

theorem geoSig3_eq_of_geoSig4_eq (g₁ g₂ : List Pt)
    (h : Backend.geoSig4 g₁ = Backend.geoSig4 g₂) :
    Backend.geoSig3 g₁ = Backend.geoSig3 g₂ := by
  cases g₁ with
  | nil =>
      cases g₂ with
      | nil => rfl
      | cons p rest => simp [Backend.geoSig4] at h
  | cons p rest =>
      cases g₂ with
      | nil => simp [Backend.geoSig4] at h
      | cons q rest' =>
          simp only [Backend.geoSig4, Option.some.injEq, Prod.mk.injEq] at h
          simp only [Backend.geoSig3, Option.some.injEq, Prod.mk.injEq]
          exact ⟨h.1, h.2.1, h.2.2.1⟩

/-- **C3** — If the candidate with minimum CO₂ and the candidate with
minimum estimated time have equal geometry signatures (the 4-tuple of
point count, first point, last point and midpoint), the candidate ranker
emits exactly one result, carrying the combined role label
"Fastest & Most Efficient", and no "balanced" result. -/
theorem role_collapse_single_result (c : Backend.ProcessedRoute)
    (cs : List Backend.ProcessedRoute)
    (hsig : Backend.geoSig4 (Backend.minByKey (fun r => r.metrics.co2_kg) c cs).geometry =
      Backend.geoSig4 (Backend.minByKey (fun r => r.metrics.estimated_time_min) c cs).geometry) :
    ∃ out, Backend.assign_roles (c :: cs) = .ok out ∧ out.length = 1 ∧
      (∀ r ∈ out, r.route_name = "Fastest & Most Efficient") ∧
      (∀ r ∈ out, r.route_type ≠ "balanced") := by
  have hsame : Backend.get_geo_sig (Backend.minByKey (fun r => r.metrics.estimated_time_min) c cs) =
      Backend.get_geo_sig (Backend.minByKey (fun r => r.metrics.co2_kg) c cs) := by
    rw [Backend.get_geo_sig, Backend.get_geo_sig]
    exact (geoSig3_eq_of_geoSig4_eq _ _ hsig).symm
  have hroles : Backend.assign_roles (c :: cs) = .ok
      [Backend.displayRound ⟨"Fastest & Most Efficient", "most_efficient",
        (Backend.minByKey (fun r => r.metrics.estimated_time_min) c cs).metrics,
        (Backend.minByKey (fun r => r.metrics.estimated_time_min) c cs).geometry⟩] := by
    simp only [Backend.assign_roles, if_pos hsame, List.map_cons, List.map_nil]
  refine ⟨_, hroles, rfl, ?_, ?_⟩
  · intro r hr
    simp only [List.mem_singleton] at hr
    subst hr
    rfl
  · intro r hr
    simp only [List.mem_singleton] at hr
    subst hr
    simp [Backend.displayRound]

theorem role_collapse_single_result_witness :
    ∃ out,
      Backend.assign_roles
          [{ metrics := { fuel_liters := 1, co2_kg := 2, cost_usd := 80, distance_km := 12,
                          elevation_gain_m := 0, estimated_time_min := 15,
                          total_cost_score := 100, confidence_score := 1 },
             traffic := .NORMAL,
             weather := { temperature := 20, condition := "Clear", wind_speed := 5,
                          precipitation := 0, visibility := 10, weather_code := 0,
                          is_fallback := false },
             geometry := [(0, 0), (1, 1)] }] = .ok out ∧
      out.length = 1 ∧
      (∀ r ∈ out, r.route_name = "Fastest & Most Efficient") ∧
      (∀ r ∈ out, r.route_type ≠ "balanced") :=
  role_collapse_single_result _ [] rfl

theorem recheck_foldl_inv (active_id : ℕ) (weather : WeatherData) (A : ℚ)
    (cands : List Agent.AgentCandidate) :
    ∀ (Q : Agent.AgentCandidate → Prop) (st : Option Agent.AgentCandidate × ℚ),
      ((st.1 = none ∧ st.2 = A) ∨
        (∃ b, st.1 = some b ∧ Agent.recomputedScore weather b = st.2 ∧
          st.2 < A - Agent.hysteresis ∧ b.id ≠ active_id ∧ Q b)) →
      (((cands.foldl (Agent.recheckStep active_id weather) st).1 = none ∧
          (cands.foldl (Agent.recheckStep active_id weather) st).2 = A) ∨
        (∃ b, (cands.foldl (Agent.recheckStep active_id weather) st).1 = some b ∧
          Agent.recomputedScore weather b =
            (cands.foldl (Agent.recheckStep active_id weather) st).2 ∧
          (cands.foldl (Agent.recheckStep active_id weather) st).2 < A - Agent.hysteresis ∧
          b.id ≠ active_id ∧ (Q b ∨ b ∈ cands))) := by
  induction cands with
  | nil =>
      intro Q st h
      rcases h with h | ⟨b, hb⟩
      · exact Or.inl h
      · exact Or.inr ⟨b, hb.1, hb.2.1, hb.2.2.1, hb.2.2.2.1, Or.inl hb.2.2.2.2⟩
  | cons c cs ih =>
      intro Q st h
      rw [List.foldl_cons]
      have hstep : ((Agent.recheckStep active_id weather st c).1 = none ∧
            (Agent.recheckStep active_id weather st c).2 = A) ∨
          (∃ b, (Agent.recheckStep active_id weather st c).1 = some b ∧
            Agent.recomputedScore weather b = (Agent.recheckStep active_id weather st c).2 ∧
            (Agent.recheckStep active_id weather st c).2 < A - Agent.hysteresis ∧
            b.id ≠ active_id ∧ (Q b ∨ b = c)) := by
        by_cases hid : c.id = active_id
        · simp only [Agent.recheckStep, if_pos hid]
          rcases h with h | ⟨b, hb⟩
          · exact Or.inl h
          · exact Or.inr ⟨b, hb.1, hb.2.1, hb.2.2.1, hb.2.2.2.1, Or.inl hb.2.2.2.2⟩
        · have hst2 : st.2 ≤ A := by
            rcases h with ⟨_, h2⟩ | ⟨b, _, _, h2, _⟩
            · exact le_of_eq h2
            · have hh : Agent.hysteresis = 1 := rfl
              linarith
          by_cases hlt : Agent.recomputedScore weather c < st.2 - Agent.hysteresis
          · simp only [Agent.recheckStep, if_neg hid, if_pos hlt]
            refine Or.inr ⟨c, rfl, rfl, ?_, hid, Or.inr rfl⟩
            calc Agent.recomputedScore weather c < st.2 - Agent.hysteresis := hlt
            _ ≤ A - Agent.hysteresis := by linarith
          · simp only [Agent.recheckStep, if_neg hid, if_neg hlt]
            rcases h with h | ⟨b, hb⟩
            · exact Or.inl h
            · exact Or.inr ⟨b, hb.1, hb.2.1, hb.2.2.1, hb.2.2.2.1, Or.inl hb.2.2.2.2⟩
      have := ih (fun b => Q b ∨ b = c) (Agent.recheckStep active_id weather st c) hstep
      rcases this with h' | ⟨b, h1, h2, h3, h4, h5⟩
      · exact Or.inl h'
      · refine Or.inr ⟨b, h1, h2, h3, h4, ?_⟩
        rcases h5 with (hq | hbc) | hmem
        · exact Or.inl hq
        · exact Or.inr (by simp [hbc])
        · exact Or.inr (List.mem_cons_of_mem _ hmem)

/-- **C1 (amended)** — A switch away from the active route happens only
onto an alternate whose recomputed `total_cost_score` is strictly below
the active route's recomputed score minus the hysteresis margin (so no
switch happens when every difference equals the margin exactly); the
switched-to alternate is a candidate distinct from the active id, chosen
by the sequential scan that tightens the threshold to each adopted
best-so-far score minus the margin. -/
theorem reroute_switch_only_strict_qualifier (active : Agent.AgentCandidate)
    (weather : WeatherData) (candidate_routes : List Agent.AgentCandidate)
    (b : Agent.AgentCandidate)
    (h : Agent.rerouteTarget active weather candidate_routes = some b) :
    b ∈ candidate_routes ∧ b.id ≠ active.id ∧
      Agent.recomputedScore weather b <
        Agent.recomputedScore weather active - Agent.hysteresis := by
  have hinv := recheck_foldl_inv active.id weather (Agent.recomputedScore weather active)
    candidate_routes (fun _ => False) (none, Agent.recomputedScore weather active)
    (Or.inl ⟨rfl, rfl⟩)
  rw [Agent.rerouteTarget, Agent.recheckAlternatives] at h
  rcases hinv with ⟨h1, _⟩ | ⟨b', hb', hscore, hlt, hid, hmem⟩
  · rw [h1] at h
    exact absurd h (by simp)
  · rw [hb'] at h
    have hbb : b' = b := Option.some.inj h
    subst hbb
    rcases hmem with hfalse | hmem
    · exact absurd hfalse not_false
    · exact ⟨hmem, hid, by rw [hscore]; exact hlt⟩

/-- Weather used by the re-routing scenario below: clear, no precipitation,
light wind, live reading. -/
def rrWeather : WeatherData :=
  { temperature := 15, condition := "Cloudy", wind_speed := 5, precipitation := 0,
    visibility := 8, weather_code := 0, is_fallback := false }

/-- Active candidate of the re-routing scenario: recomputed score 10. -/
def rrActive : Agent.AgentCandidate := ⟨0, 0, 12 / 5, 0, .NORMAL⟩

/-- First alternate of the re-routing scenario: recomputed score 8. -/
def rrAltA : Agent.AgentCandidate := ⟨1, 0, 48 / 25, 0, .NORMAL⟩

/-- Second alternate of the re-routing scenario: recomputed score 7.5,
the minimum among the qualifying alternates. -/
def rrAltB : Agent.AgentCandidate := ⟨2, 0, 9 / 5, 0, .NORMAL⟩

theorem rrActive_score : Agent.recomputedScore rrWeather rrActive = 10 := by
  rw [Agent.recomputedScore]
  simp only [CostModel.calculate, rrActive, rrWeather, CostModel.trafficMult,
    CostModel.weatherFactor, CostModel.BASE_FUEL_PER_KM, CostModel.FUEL_COST_PER_LITER]
  rw [roundTo_def]
  norm_num

theorem rrAltA_score : Agent.recomputedScore rrWeather rrAltA = 8 := by
  rw [Agent.recomputedScore]
  simp only [CostModel.calculate, rrAltA, rrWeather, CostModel.trafficMult,
    CostModel.weatherFactor, CostModel.BASE_FUEL_PER_KM, CostModel.FUEL_COST_PER_LITER]
  rw [roundTo_def]
  norm_num

theorem rrAltB_score : Agent.recomputedScore rrWeather rrAltB = 15 / 2 := by
  rw [Agent.recomputedScore]
  simp only [CostModel.calculate, rrAltB, rrWeather, CostModel.trafficMult,
    CostModel.weatherFactor, CostModel.BASE_FUEL_PER_KM, CostModel.FUEL_COST_PER_LITER]
  rw [roundTo_def]
  norm_num

/-- **C1 (counterexample)** — With recomputed scores 10 (active), 8
(alternate 1) and 7.5 (alternate 2), both alternates strictly beat the
active score minus the hysteresis margin, yet the loop switches to
alternate 1: after adopting it, the threshold tightens to `8 - 1`, which
7.5 does not beat.  The alternate switched to is therefore not the one
with the minimum recomputed `total_cost_score` among the qualifiers. -/
theorem reroute_picks_nonminimal_alternate :
    Agent.rerouteTarget rrActive rrWeather [rrActive, rrAltA, rrAltB] = some rrAltA ∧
    rrAltB ∈ [rrActive, rrAltA, rrAltB] ∧
    rrAltB.id ≠ rrActive.id ∧
    Agent.recomputedScore rrWeather rrAltB <
      Agent.recomputedScore rrWeather rrActive - Agent.hysteresis ∧
    Agent.recomputedScore rrWeather rrAltB < Agent.recomputedScore rrWeather rrAltA := by
  refine ⟨?_, by simp, by norm_num [rrAltB, rrActive],
    by rw [rrAltB_score, rrActive_score]; norm_num [Agent.hysteresis],
    by rw [rrAltB_score, rrAltA_score]; norm_num⟩
  rw [Agent.rerouteTarget, Agent.recheckAlternatives]
  simp only [List.foldl_cons, List.foldl_nil]
  norm_num [Agent.recheckStep, Agent.hysteresis, rrActive_score, rrAltA_score, rrAltB_score,
    show rrActive.id = 0 from rfl, show rrAltA.id = 1 from rfl, show rrAltB.id = 2 from rfl]

theorem reroute_switch_only_strict_qualifier_witness :
    rrAltA ∈ [rrActive, rrAltA, rrAltB] ∧ rrAltA.id ≠ rrActive.id ∧
      Agent.recomputedScore rrWeather rrAltA <
        Agent.recomputedScore rrWeather rrActive - Agent.hysteresis :=
  reroute_switch_only_strict_qualifier rrActive rrWeather [rrActive, rrAltA, rrAltB] rrAltA
    (by rw [Agent.rerouteTarget, Agent.recheckAlternatives]
        simp only [List.foldl_cons, List.foldl_nil]
        norm_num [Agent.recheckStep, Agent.hysteresis, rrActive_score, rrAltA_score,
          rrAltB_score, show rrActive.id = 0 from rfl, show rrAltA.id = 1 from rfl,
          show rrAltB.id = 2 from rfl])
